import Mathlib

/-
Verification of the content synchronization and site-lock core of the
portfolio application (src/App.tsx): load/merge semantics against the
remote document store, debounced sanitized saves, and the lock state
machine. Entity field lists (types.ts) and the locale constant bundles
(constants.ts) are not part of src/, so they are modelled from the
specification where noted; all behavior is translated from src/App.tsx.
-/

namespace Portfolio

/-- Modelled from the spec: the two supported display languages (the
LanguageContext module is not in src/; App.tsx branches on
language being the string vi or anything else). -/
inductive Lang where
  | vi
  | en
deriving DecidableEq, Repr

/-- Modelled from the spec: PersonalInfo has name, title, bio, contact
fields, an avatar image reference and a logo image reference (types.ts is
not in src/; App.tsx uses avatarUrl and logoUrl directly). -/
structure PersonalInfo where
  name : String
  title : String
  bio : String
  email : String
  avatarUrl : String
  logoUrl : String
deriving DecidableEq, Repr

/-- Remote image of PersonalInfo as stored in the document: each field is
either absent or present with a defined value (the document store never
holds undefined values). -/
structure RemotePersonalInfo where
  name : Option String
  title : Option String
  bio : Option String
  email : Option String
  avatarUrl : Option String
  logoUrl : Option String
deriving DecidableEq, Repr

/-- Modelled from the spec: ThemeSettings is a single record of palette,
font, slider, background image, background music, and lock fields
(types.ts is not in src/; the field names are those App.tsx reads). -/
structure ThemeSettings where
  bgColor : String
  textColor : String
  accentColor : String
  fontHeading : String
  fontBody : String
  headerBgColor : String
  headerTextColor : String
  sliderSpeed : Nat
  bgImageUrl : String
  backgroundMusicUrl : String
  backgroundMusicVolume : Nat
  isPasswordProtectionEnabled : Bool
  sitePassword : String
deriving DecidableEq, Repr

/-- Remote image of ThemeSettings: each field absent or present. -/
structure RemoteThemeSettings where
  bgColor : Option String
  textColor : Option String
  accentColor : Option String
  fontHeading : Option String
  fontBody : Option String
  headerBgColor : Option String
  headerTextColor : Option String
  sliderSpeed : Option Nat
  bgImageUrl : Option String
  backgroundMusicUrl : Option String
  backgroundMusicVolume : Option Nat
  isPasswordProtectionEnabled : Option Bool
  sitePassword : Option String
deriving DecidableEq, Repr

/-- Modelled from the spec: an employment record. -/
structure Experience where
  title : String
  organization : String
  period : String
  description : String
deriving DecidableEq, Repr

/-- Modelled from the spec: a project record with an image reference;
App.tsx reads imageUrl during sanitization. -/
structure Project where
  id : Nat
  title : String
  description : String
  imageUrl : String
deriving DecidableEq, Repr

/-- Modelled from the spec: a certificate record with an image reference;
App.tsx reads imageUrl during sanitization. -/
structure Certificate where
  id : Nat
  title : String
  issuer : String
  imageUrl : String
deriving DecidableEq, Repr

/-- Modelled from the spec: a named skill category with ordered skills. -/
structure SkillCategory where
  name : String
  skills : List String
deriving DecidableEq, Repr

/-- Aggregate of the six persisted state values of App.tsx: personalInfo,
workExperience, projects, certifications, skills, themeSettings. -/
structure Bundle where
  personalInfo : PersonalInfo
  workExperience : List Experience
  projects : List Project
  certifications : List Certificate
  skills : List SkillCategory
  themeSettings : ThemeSettings
deriving DecidableEq, Repr

/-- Remote SyncDocument as fetched by docRef.get: any of the six members
may be absent. A present collection may be any list, including the empty
one. -/
structure RemoteDoc where
  personalInfo : Option RemotePersonalInfo
  workExperience : Option (List Experience)
  projects : Option (List Project)
  certifications : Option (List Certificate)
  skills : Option (List SkillCategory)
  themeSettings : Option RemoteThemeSettings
deriving DecidableEq, Repr

/-- Modelled from the spec: the locale constant bundles imported by
App.tsx from constants.ts, which is not in src/. The theme default is a
single record shared by both locales. -/
structure Constants where
  PERSONAL_INFO_VI : PersonalInfo
  PERSONAL_INFO_EN : PersonalInfo
  WORK_EXPERIENCE_VI : List Experience
  WORK_EXPERIENCE_EN : List Experience
  PROJECTS_VI : List Project
  PROJECTS_EN : List Project
  CERTIFICATIONS_VI : List Certificate
  CERTIFICATIONS_EN : List Certificate
  SKILLS_DATA_VI : List SkillCategory
  SKILLS_DATA_EN : List SkillCategory
  INITIAL_THEME_SETTINGS : ThemeSettings
deriving DecidableEq, Repr

/-- Locale default bundle, as selected by the language conditionals in
fetchData (App.tsx lines 92 to 96) together with the shared theme default
(line 103 merges over INITIAL_THEME_SETTINGS for either locale). -/
def Constants.defaults (c : Constants) : Lang → Bundle
  | .vi =>
    { personalInfo := c.PERSONAL_INFO_VI
      workExperience := c.WORK_EXPERIENCE_VI
      projects := c.PROJECTS_VI
      certifications := c.CERTIFICATIONS_VI
      skills := c.SKILLS_DATA_VI
      themeSettings := c.INITIAL_THEME_SETTINGS }
  | .en =>
    { personalInfo := c.PERSONAL_INFO_EN
      workExperience := c.WORK_EXPERIENCE_EN
      projects := c.PROJECTS_EN
      certifications := c.CERTIFICATIONS_EN
      skills := c.SKILLS_DATA_EN
      themeSettings := c.INITIAL_THEME_SETTINGS }

/-- Remote PersonalInfo with every field absent: the value of
data.personalInfo or empty-object when the member is missing. -/
def emptyRemotePersonalInfo : RemotePersonalInfo :=
  ⟨none, none, none, none, none, none⟩

/-- Remote ThemeSettings with every field absent. -/
def emptyRemoteThemeSettings : RemoteThemeSettings :=
  ⟨none, none, none, none, none, none, none, none, none, none, none, none,
   none⟩

/-- Shallow merge for PersonalInfo, App.tsx line 98: spread of the base
followed by spread of the remote fields, so a present remote field wins
and an absent one keeps the base value. -/
def mergePersonalInfo (base : PersonalInfo) (r : RemotePersonalInfo) :
    PersonalInfo :=
  { name := r.name.getD base.name
    title := r.title.getD base.title
    bio := r.bio.getD base.bio
    email := r.email.getD base.email
    avatarUrl := r.avatarUrl.getD base.avatarUrl
    logoUrl := r.logoUrl.getD base.logoUrl }

/-- Shallow merge for ThemeSettings, App.tsx line 103: spread of
INITIAL_THEME_SETTINGS followed by spread of the remote fields. -/
def mergeThemeSettings (base : ThemeSettings) (r : RemoteThemeSettings) :
    ThemeSettings :=
  { bgColor := r.bgColor.getD base.bgColor
    textColor := r.textColor.getD base.textColor
    accentColor := r.accentColor.getD base.accentColor
    fontHeading := r.fontHeading.getD base.fontHeading
    fontBody := r.fontBody.getD base.fontBody
    headerBgColor := r.headerBgColor.getD base.headerBgColor
    headerTextColor := r.headerTextColor.getD base.headerTextColor
    sliderSpeed := r.sliderSpeed.getD base.sliderSpeed
    bgImageUrl := r.bgImageUrl.getD base.bgImageUrl
    backgroundMusicUrl := r.backgroundMusicUrl.getD base.backgroundMusicUrl
    backgroundMusicVolume :=
      r.backgroundMusicVolume.getD base.backgroundMusicVolume
    isPasswordProtectionEnabled :=
      r.isPasswordProtectionEnabled.getD base.isPasswordProtectionEnabled
    sitePassword := r.sitePassword.getD base.sitePassword }

/-- Document-exists branch of fetchData, App.tsx lines 89 to 104:
PersonalInfo and ThemeSettings are shallow-merged over their defaults
(absent member treated as the empty object); each of the four collections
is taken from the document whenever the member is present (a JavaScript
array is truthy even when empty) and falls back to the locale default only
when the member is absent or null. -/
def applyRemote (base : Bundle) (initialTheme : ThemeSettings)
    (d : RemoteDoc) : Bundle :=
  { personalInfo :=
      mergePersonalInfo base.personalInfo
        (d.personalInfo.getD emptyRemotePersonalInfo)
    workExperience := d.workExperience.getD base.workExperience
    projects := d.projects.getD base.projects
    certifications := d.certifications.getD base.certifications
    skills := d.skills.getD base.skills
    themeSettings :=
      mergeThemeSettings initialTheme
        (d.themeSettings.getD emptyRemoteThemeSettings) }

/-- Outcome of one get call against an available store: the read throws,
the document is missing, or the document is found with fields d. -/
inductive FetchResult where
  | failure
  | missing
  | found (d : RemoteDoc)
deriving DecidableEq, Repr

/-- Observable outcome of the load effect: resulting in-memory bundle, the
list of writes issued, the number of reads attempted, whether the
user-visible load error message was set, and whether loading completed. -/
structure LoadOutcome where
  bundle : Bundle
  writes : List Bundle
  reads : Nat
  errorSet : Bool
  loadingDone : Bool
deriving DecidableEq, Repr

/-- Load effect of App.tsx lines 77 to 126, starting from the in-memory
bundle base (the active-locale defaults after the language effect). When
the store client is null the effect only marks loading complete; otherwise
one read is attempted: on failure the error message is set and state kept,
on a missing document the Vietnamese-locale default bundle is written once,
and on a found document the merge of applyRemote is installed. Loading is
marked complete in every branch by the finally block. -/
def loadEffect (base : Bundle) (initialTheme : ThemeSettings)
    (viDefaults : Bundle) : Option FetchResult → LoadOutcome
  | none =>
    { bundle := base, writes := [], reads := 0, errorSet := false,
      loadingDone := true }
  | some .failure =>
    { bundle := base, writes := [], reads := 1, errorSet := true,
      loadingDone := true }
  | some .missing =>
    { bundle := base, writes := [viDefaults], reads := 1,
      errorSet := false, loadingDone := true }
  | some (.found d) =>
    { bundle := applyRemote base initialTheme d, writes := [], reads := 1,
      errorSet := false, loadingDone := true }

/-- Per-field override relation: the result equals the remote value when
the field is present and the default when it is absent. -/
def overrides {α : Type} (dflt : α) (r : Option α) (res : α) : Prop :=
  (∀ v, r = some v → res = v) ∧ (r = none → res = dflt)

theorem overrides_getD {α : Type} (dflt : α) (r : Option α) :
    overrides dflt r (r.getD dflt) := by
  cases r <;> simp [overrides]

/-- Field-wise override statement for PersonalInfo. -/
def piOverrides (base : PersonalInfo) (r : RemotePersonalInfo)
    (res : PersonalInfo) : Prop :=
  overrides base.name r.name res.name ∧
  overrides base.title r.title res.title ∧
  overrides base.bio r.bio res.bio ∧
  overrides base.email r.email res.email ∧
  overrides base.avatarUrl r.avatarUrl res.avatarUrl ∧
  overrides base.logoUrl r.logoUrl res.logoUrl

/-- Field-wise override statement for ThemeSettings. -/
def tsOverrides (base : ThemeSettings) (r : RemoteThemeSettings)
    (res : ThemeSettings) : Prop :=
  overrides base.bgColor r.bgColor res.bgColor ∧
  overrides base.textColor r.textColor res.textColor ∧
  overrides base.accentColor r.accentColor res.accentColor ∧
  overrides base.fontHeading r.fontHeading res.fontHeading ∧
  overrides base.fontBody r.fontBody res.fontBody ∧
  overrides base.headerBgColor r.headerBgColor res.headerBgColor ∧
  overrides base.headerTextColor r.headerTextColor res.headerTextColor ∧
  overrides base.sliderSpeed r.sliderSpeed res.sliderSpeed ∧
  overrides base.bgImageUrl r.bgImageUrl res.bgImageUrl ∧
  overrides base.backgroundMusicUrl r.backgroundMusicUrl
    res.backgroundMusicUrl ∧
  overrides base.backgroundMusicVolume r.backgroundMusicVolume
    res.backgroundMusicVolume ∧
  overrides base.isPasswordProtectionEnabled r.isPasswordProtectionEnabled
    res.isPasswordProtectionEnabled ∧
  overrides base.sitePassword r.sitePassword res.sitePassword

theorem mergePersonalInfo_overrides (base : PersonalInfo)
    (r : RemotePersonalInfo) :
    piOverrides base r (mergePersonalInfo base r) := by
  refine ⟨?_, ?_, ?_, ?_, ?_, ?_⟩ <;> exact overrides_getD _ _

theorem mergeThemeSettings_overrides (base : ThemeSettings)
    (r : RemoteThemeSettings) :
    tsOverrides base r (mergeThemeSettings base r) := by
  refine ⟨?_, ?_, ?_, ?_, ?_, ?_, ?_, ?_, ?_, ?_, ?_, ?_, ?_⟩ <;>
    exact overrides_getD _ _

/-- C1: for every existing remote document, the load protocol produces a
PersonalInfo that is the shallow merge of the active-locale default
PersonalInfo with the document PersonalInfo, and a ThemeSettings that is
the shallow merge of the default ThemeSettings with the document
ThemeSettings: every field present in the document keeps its remote value
in the result, and every absent field keeps the default (a field of a
missing member object counts as absent). -/
theorem load_merges_over_defaults (c : Constants) (l : Lang)
    (d : RemoteDoc) :
    piOverrides (c.defaults l).personalInfo
      (d.personalInfo.getD emptyRemotePersonalInfo)
      ((loadEffect (c.defaults l) c.INITIAL_THEME_SETTINGS
          (c.defaults .vi) (some (.found d))).bundle.personalInfo) ∧
    tsOverrides c.INITIAL_THEME_SETTINGS
      (d.themeSettings.getD emptyRemoteThemeSettings)
      ((loadEffect (c.defaults l) c.INITIAL_THEME_SETTINGS
          (c.defaults .vi) (some (.found d))).bundle.themeSettings) := by
  constructor
  · exact mergePersonalInfo_overrides _ _
  · exact mergeThemeSettings_overrides _ _

/-- Boolean test that the string s starts with the string pre, stated on
the character lists so that it evaluates by kernel reduction. -/
def strStarts (s pre : String) : Bool :=
  pre.data.isPrefixOf s.data

/-- Inline-payload marker test corresponding to startsWith of data: in
App.tsx lines 136 to 141. -/
def isInlinePayload (s : String) : Bool :=
  strStarts s "data:"

/-- Placeholder URL substituted for inline project images, App.tsx
line 140. -/
def projectPlaceholderUrl : String :=
  "https://picsum.photos/seed/project/600/400"

/-- Placeholder URL substituted for inline certificate images, App.tsx
line 141. -/
def certPlaceholderUrl : String :=
  "https://picsum.photos/seed/cert/600/400"

/-- Per-project sanitization, App.tsx line 140: an inline imageUrl is
replaced by the project placeholder, every other field is kept. -/
def sanitizeProject (p : Project) : Project :=
  if isInlinePayload p.imageUrl then { p with imageUrl := projectPlaceholderUrl }
  else p

/-- Per-certificate sanitization, App.tsx line 141. -/
def sanitizeCertificate (c : Certificate) : Certificate :=
  if isInlinePayload c.imageUrl then { c with imageUrl := certPlaceholderUrl }
  else c

/-- Sanitization of the save snapshot, App.tsx lines 134 to 141: the four
designated top-level fields are blanked when they hold an inline payload,
and project and certificate image fields are replaced by placeholders;
nothing else in the snapshot is touched. -/
def sanitizeBundle (b : Bundle) : Bundle :=
  { b with
    personalInfo :=
      { b.personalInfo with
        avatarUrl :=
          if isInlinePayload b.personalInfo.avatarUrl then ""
          else b.personalInfo.avatarUrl
        logoUrl :=
          if isInlinePayload b.personalInfo.logoUrl then ""
          else b.personalInfo.logoUrl }
    themeSettings :=
      { b.themeSettings with
        bgImageUrl :=
          if isInlinePayload b.themeSettings.bgImageUrl then ""
          else b.themeSettings.bgImageUrl
        backgroundMusicUrl :=
          if isInlinePayload b.themeSettings.backgroundMusicUrl then ""
          else b.themeSettings.backgroundMusicUrl }
    projects := b.projects.map sanitizeProject
    certifications := b.certifications.map sanitizeCertificate }

/-- Save step of saveStateToFirestore, App.tsx lines 130 to 143: the
snapshot is deep-copied and sanitized, so the payload sent to the store is
the sanitized copy while the in-memory state is returned unchanged. -/
def saveSnapshot (b : Bundle) : Bundle × Bundle :=
  (b, sanitizeBundle b)

/-- Trailing-edge debounce of App.tsx lines 66 to 74, applied to a
time-ordered list of calls: each call schedules its payload to fire wait
milliseconds later and cancels the previously pending timer; a call fires
only if no later call arrives strictly before its fire time. -/
def debounceFires {α : Type} (wait : Nat) :
    List (Nat × α) → List (Nat × α)
  | [] => []
  | [(t, a)] => [(t + wait, a)]
  | (t, a) :: (t', b) :: rest =>
    if t' < t + wait then debounceFires wait ((t', b) :: rest)
    else (t + wait, a) :: debounceFires wait ((t', b) :: rest)

/-- Outbound writes produced by the debounced save for a time-ordered call
burst: the debounced fires, each carrying the sanitized snapshot of the
state captured at call time (App.tsx lines 129 to 149). -/
def outboundWrites (wait : Nat) (calls : List (Nat × Bundle)) :
    List (Nat × Bundle) :=
  (debounceFires wait calls).map fun ta => (ta.1, sanitizeBundle ta.2)

/-- Burst condition: consecutive calls are time-ordered and each call
arrives strictly less than wait milliseconds after the previous one. -/
def Burst (wait : Nat) : List (Nat × Bundle) → Prop
  | [] => True
  | [_] => True
  | (t, _) :: (t', b) :: rest =>
    t ≤ t' ∧ t' < t + wait ∧ Burst wait ((t', b) :: rest)

/-- Guarded save writes for a whole session: the debounced save callback
returns immediately when the store client is null (App.tsx line 131), and
the triggering effect also returns early in that case (line 153), so an
unavailable store yields no outbound write for any call burst. -/
def saveWrites (storeAvailable : Bool) (wait : Nat)
    (calls : List (Nat × Bundle)) : List (Nat × Bundle) :=
  if storeAvailable then outboundWrites wait calls else []

/-- Component state of AppContent relevant to the lock machine and the
save trigger: the six persisted values, the two boolean flags, and the
loading flag. -/
structure AppState where
  bundle : Bundle
  unlocked : Bool
  authenticated : Bool
  isLoading : Bool
deriving DecidableEq, Repr

/-- State right after mount with bundle b: isSiteUnlocked and
isAuthenticated start false (App.tsx lines 30 and 31) and the lock effect
(lines 169 to 175) immediately sets isSiteUnlocked to the negation of
isPasswordProtectionEnabled. -/
def mountState (b : Bundle) : AppState :=
  { bundle := b
    unlocked := !b.themeSettings.isPasswordProtectionEnabled
    authenticated := false
    isLoading := false }

/-- Site password submission, App.tsx lines 238 to 244: exact string match
against themeSettings.sitePassword unlocks and returns true; anything else
leaves the state untouched and returns false. -/
def handleUnlockSite (s : AppState) (password : String) :
    AppState × Bool :=
  if password = s.bundle.themeSettings.sitePassword then
    ({ s with unlocked := true }, true)
  else (s, false)

/-- Admin unlock, App.tsx lines 246 to 252: the fixed credential pair
unlocks and returns true; anything else leaves the state untouched and
returns false. The authenticated flag is never written here. -/
def handleAdminLoginForUnlock (s : AppState) (username password : String) :
    AppState × Bool :=
  if username = "Minh" ∧ password = "2004" then
    ({ s with unlocked := true }, true)
  else (s, false)

/-- Settings login success callback, App.tsx line 296: sets
isAuthenticated and nothing else. -/
def handleLoginSuccess (s : AppState) : AppState :=
  { s with authenticated := true }

/-- Logout, App.tsx lines 254 to 257: clears isAuthenticated (navigation
state is outside this model). -/
def handleLogout (s : AppState) : AppState :=
  { s with authenticated := false }

/-- Theme settings update followed by the lock effect of App.tsx lines
169 to 175: the effect re-runs exactly when its dependency
isPasswordProtectionEnabled changed, and then sets isSiteUnlocked to the
negation of the new flag. -/
def setThemeSettings (s : AppState) (t : ThemeSettings) : AppState :=
  let s' := { s with bundle := { s.bundle with themeSettings := t } }
  if t.isPasswordProtectionEnabled
      = s.bundle.themeSettings.isPasswordProtectionEnabled then s'
  else { s' with unlocked := !t.isPasswordProtectionEnabled }

/-- Events of the lock machine. -/
inductive Ev where
  | setTheme (t : ThemeSettings)
  | submitSitePassword (p : String)
  | submitAdminUnlock (u : String) (p : String)
  | loginSuccess
  | logout
deriving DecidableEq, Repr

/-- Single transition of the lock machine. -/
def step (s : AppState) : Ev → AppState
  | .setTheme t => setThemeSettings s t
  | .submitSitePassword p => (handleUnlockSite s p).1
  | .submitAdminUnlock u p => (handleAdminLoginForUnlock s u p).1
  | .loginSuccess => handleLoginSuccess s
  | .logout => handleLogout s

/-- Run of the lock machine over an event list. -/
def runEvents (s : AppState) (evs : List Ev) : AppState :=
  evs.foldl step s

/-- Predicate stating that along a trace no unlock occurs: password
protection is never switched off, every submitted site password mismatches
the then-current sitePassword, and no admin credential pair is correct. -/
def NoUnlock : AppState → List Ev → Prop
  | _, [] => True
  | s, e :: rest =>
    (match e with
     | .setTheme t => t.isPasswordProtectionEnabled = true
     | .submitSitePassword p => p ≠ s.bundle.themeSettings.sitePassword
     | .submitAdminUnlock u p => ¬(u = "Minh" ∧ p = "2004")
     | _ => True) ∧ NoUnlock (step s e) rest

/-- Language effect, App.tsx lines 48 to 62: the four collection values
and personalInfo are replaced wholesale by the new locale defaults (the
personalInfo spread of a complete locale record overwrites every field);
themeSettings is not touched by this effect. -/
def langSwitch (c : Constants) (l : Lang) (prev : Bundle) : Bundle :=
  { prev with
    personalInfo := (c.defaults l).personalInfo
    workExperience := (c.defaults l).workExperience
    projects := (c.defaults l).projects
    certifications := (c.defaults l).certifications
    skills := (c.defaults l).skills }

/-- Dependencies of the save effect, App.tsx line 165, up to the stable
callback reference: the six persisted values and the loading flag. -/
def saveDeps (s : AppState) : Bundle × Bool :=
  (s.bundle, s.isLoading)

/-- React re-runs the save effect after a transition exactly when some
dependency changed. -/
def saveEffectFires (pre post : AppState) : Prop :=
  saveDeps post ≠ saveDeps pre

/-- Concrete sample used to instantiate witness theorems. -/
def samplePersonalInfoVi : PersonalInfo :=
  ⟨"Minh", "Sinh vien", "Xin chao", "minh@mail.vn", "https://a.png",
   "https://l.png"⟩

/-- Concrete sample used to instantiate witness theorems. -/
def samplePersonalInfoEn : PersonalInfo :=
  ⟨"Minh", "Student", "Hello", "minh@mail.vn", "https://a.png",
   "https://l.png"⟩

/-- Concrete sample used to instantiate witness theorems. -/
def sampleTheme : ThemeSettings :=
  ⟨"#0f172a", "#e2e8f0", "#22d3ee", "Orbitron", "Inter", "#0b1220",
   "#f1f5f9", 30, "", "", 1, false, "abc123"⟩

/-- Concrete sample used to instantiate witness theorems. -/
def sampleExperienceVi : Experience :=
  ⟨"Thuc tap sinh", "Cong ty A", "2023", "Mo ta"⟩

/-- Concrete sample used to instantiate witness theorems. -/
def sampleProjectVi : Project :=
  ⟨1, "Du an 1", "Mo ta du an", "https://img/p1.png"⟩

/-- Concrete sample used to instantiate witness theorems. -/
def sampleCertificateVi : Certificate :=
  ⟨1, "Chung chi 1", "To chuc B", "https://img/c1.png"⟩

/-- Concrete sample used to instantiate witness theorems. -/
def sampleSkillVi : SkillCategory :=
  ⟨"Ngon ngu", ["TypeScript", "Lean"]⟩

/-- Concrete sample standing in for the constants.ts bundles in witness
and counterexample theorems. -/
def sampleConstants : Constants :=
  { PERSONAL_INFO_VI := samplePersonalInfoVi
    PERSONAL_INFO_EN := samplePersonalInfoEn
    WORK_EXPERIENCE_VI := [sampleExperienceVi]
    WORK_EXPERIENCE_EN := [{ sampleExperienceVi with title := "Intern" }]
    PROJECTS_VI := [sampleProjectVi]
    PROJECTS_EN := [{ sampleProjectVi with title := "Project 1" }]
    CERTIFICATIONS_VI := [sampleCertificateVi]
    CERTIFICATIONS_EN := [{ sampleCertificateVi with title := "Cert 1" }]
    SKILLS_DATA_VI := [sampleSkillVi]
    SKILLS_DATA_EN := [{ sampleSkillVi with name := "Languages" }]
    INITIAL_THEME_SETTINGS := sampleTheme }

/-- Concrete remote document used by witnesses: personalInfo present with
only the name field defined, themeSettings present with only sitePassword
defined, workExperience present, the other collections absent. -/
def sampleRemoteDoc : RemoteDoc :=
  { personalInfo :=
      some { emptyRemotePersonalInfo with name := some "Remote Minh" }
    workExperience := some [{ sampleExperienceVi with title := "Remote" }]
    projects := none
    certifications := none
    skills := none
    themeSettings :=
      some { emptyRemoteThemeSettings with sitePassword := some "s3cret" } }

/-- Concrete bundle whose theme has password protection enabled. -/
def sampleLockedBundle : Bundle :=
  { sampleConstants.defaults .vi with
    themeSettings :=
      { sampleTheme with
        isPasswordProtectionEnabled := true, sitePassword := "abc123" } }

theorem step_preserves_locked (s : AppState) (e : Ev)
    (hu : s.unlocked = false)
    (he : s.bundle.themeSettings.isPasswordProtectionEnabled = true)
    (hc : match e with
      | .setTheme t => t.isPasswordProtectionEnabled = true
      | .submitSitePassword p => p ≠ s.bundle.themeSettings.sitePassword
      | .submitAdminUnlock u p => ¬(u = "Minh" ∧ p = "2004")
      | _ => True) :
    (step s e).unlocked = false ∧
    (step s e).bundle.themeSettings.isPasswordProtectionEnabled = true := by
  cases e with
  | setTheme t =>
    simp only at hc
    simp [step, setThemeSettings, he, hc, hu]
  | submitSitePassword p =>
    simp only at hc
    simp [step, handleUnlockSite, hc, hu, he]
  | submitAdminUnlock u p =>
    simp only at hc
    simp [step, handleAdminLoginForUnlock, hc, hu, he]
  | loginSuccess => simp [step, handleLoginSuccess, hu, he]
  | logout => simp [step, handleLogout, hu, he]

theorem locked_run (evs : List Ev) :
    ∀ s : AppState, s.unlocked = false →
      s.bundle.themeSettings.isPasswordProtectionEnabled = true →
      NoUnlock s evs → (runEvents s evs).unlocked = false := by
  induction evs with
  | nil => intro s hu _ _; simpa [runEvents] using hu
  | cons e rest ih =>
    intro s hu he hno
    simp only [NoUnlock] at hno
    obtain ⟨hc, hrest⟩ := hno
    have h2 := step_preserves_locked s e hu he hc
    have hrun : runEvents s (e :: rest) = runEvents (step s e) rest := rfl
    rw [hrun]
    exact ih (step s e) h2.1 h2.2 hrest

/-- Invariant of the lock machine: whenever password protection is
disabled, the site is unlocked. -/
def LockInv (s : AppState) : Prop :=
  s.bundle.themeSettings.isPasswordProtectionEnabled = false →
    s.unlocked = true

theorem lockInv_mount (b : Bundle) : LockInv (mountState b) := by
  intro h
  simp [mountState] at h ⊢
  simp [h]

theorem lockInv_step (s : AppState) (e : Ev) (hin : LockInv s) :
    LockInv (step s e) := by
  cases e with
  | setTheme t =>
    intro h
    by_cases hc : t.isPasswordProtectionEnabled
        = s.bundle.themeSettings.isPasswordProtectionEnabled
    · simp [step, setThemeSettings, hc] at h ⊢
      exact hin (hc ▸ h)
    · simp [step, setThemeSettings, hc] at h ⊢
      simp [h]
  | submitSitePassword p =>
    intro h
    by_cases hp : p = s.bundle.themeSettings.sitePassword
    · simp [step, handleUnlockSite, hp]
    · simp [step, handleUnlockSite, hp] at h ⊢
      exact hin h
  | submitAdminUnlock u p =>
    intro h
    by_cases hp : u = "Minh" ∧ p = "2004"
    · simp [step, handleAdminLoginForUnlock, hp]
    · simp [step, handleAdminLoginForUnlock, hp] at h ⊢
      exact hin h
  | loginSuccess =>
    intro h
    simp [step, handleLoginSuccess] at h ⊢
    exact hin h
  | logout =>
    intro h
    simp [step, handleLogout] at h ⊢
    exact hin h

theorem lockInv_run (evs : List Ev) :
    ∀ s : AppState, LockInv s → LockInv (runEvents s evs) := by
  induction evs with
  | nil => intro s h; simpa [runEvents] using h
  | cons e rest ih =>
    intro s h
    have hrun : runEvents s (e :: rest) = runEvents (step s e) rest := rfl
    rw [hrun]
    exact ih (step s e) (lockInv_step s e h)

/-- C2: the lock state machine. With protection enabled at mount and no
unlock along the trace the state stays Locked; submitting the exact site
password unlocks and returns true; submitting any other password leaves
the state untouched and returns false; and disabling password protection
from any reachable state forces Unlocked. -/
theorem lock_state_machine :
    (∀ (b : Bundle) (evs : List Ev),
        b.themeSettings.isPasswordProtectionEnabled = true →
        NoUnlock (mountState b) evs →
        (runEvents (mountState b) evs).unlocked = false) ∧
    (∀ s : AppState,
        handleUnlockSite s s.bundle.themeSettings.sitePassword
          = ({ s with unlocked := true }, true)) ∧
    (∀ (s : AppState) (p : String),
        p ≠ s.bundle.themeSettings.sitePassword →
        handleUnlockSite s p = (s, false)) ∧
    (∀ (b : Bundle) (evs : List Ev) (t : ThemeSettings),
        t.isPasswordProtectionEnabled = false →
        (step (runEvents (mountState b) evs) (.setTheme t)).unlocked
          = true) := by
  refine ⟨?_, ?_, ?_, ?_⟩
  · intro b evs hb hno
    apply locked_run evs (mountState b) _ _ hno
    · simp [mountState, hb]
    · simpa [mountState] using hb
  · intro s
    simp [handleUnlockSite]
  · intro s p hp
    simp [handleUnlockSite, hp]
  · intro b evs t ht
    have hinv := lockInv_run evs (mountState b) (lockInv_mount b)
    by_cases hc : t.isPasswordProtectionEnabled
        = (runEvents (mountState b) evs).bundle.themeSettings.isPasswordProtectionEnabled
    · have hse : (runEvents (mountState b) evs).bundle.themeSettings.isPasswordProtectionEnabled = false := hc ▸ ht
      have hu := hinv hse
      simp only [step, setThemeSettings]
      rw [if_pos hc]
      simpa using hu
    · simp only [step, setThemeSettings]
      rw [if_neg hc]
      simp [ht]

/-- Witness for C2 at concrete inputs: a wrong password keeps the mounted
locked state locked; the exact password unlocks with result true; a wrong
password returns the state unchanged with result false; and switching
protection off unlocks. -/
theorem lock_state_machine_witness :
    (runEvents (mountState sampleLockedBundle)
        [.submitSitePassword "wrong"]).unlocked = false ∧
    handleUnlockSite (mountState sampleLockedBundle) "abc123"
      = ({ mountState sampleLockedBundle with unlocked := true }, true) ∧
    handleUnlockSite (mountState sampleLockedBundle) "wrong"
      = (mountState sampleLockedBundle, false) ∧
    (step (runEvents (mountState sampleLockedBundle) [])
        (.setTheme sampleTheme)).unlocked = true := by
  have h := lock_state_machine
  refine ⟨h.1 sampleLockedBundle _ rfl ⟨by decide, trivial⟩, ?_, ?_, ?_⟩
  · have hb := h.2.1 (mountState sampleLockedBundle)
    simpa using hb
  · exact h.2.2.1 (mountState sampleLockedBundle) "wrong" (by decide)
  · exact h.2.2.2 sampleLockedBundle [] sampleTheme rfl

/-- Last element of a call list. -/
def lastCall {α : Type} : List (Nat × α) → Option (Nat × α)
  | [] => none
  | [x] => some x
  | _ :: y :: rest => lastCall (y :: rest)

theorem debounce_core : ∀ (calls : List (Nat × Bundle)) (t : Nat)
    (b : Bundle), Burst 2000 calls → lastCall calls = some (t, b) →
    debounceFires 2000 calls = [(t + 2000, b)]
  | [], _, _, _, hlast => by simp [lastCall] at hlast
  | [(t0, b0)], t, b, _, hlast => by
    simp [lastCall] at hlast
    simp [debounceFires, hlast.1, hlast.2]
  | (t0, b0) :: (t1, b1) :: rest, t, b, hb, hlast => by
    have hb' : t0 ≤ t1 ∧ t1 < t0 + 2000 ∧ Burst 2000 ((t1, b1) :: rest) :=
      hb
    have hl : lastCall ((t1, b1) :: rest) = some (t, b) := hlast
    have ih := debounce_core ((t1, b1) :: rest) t b hb'.2.2 hl
    simp [debounceFires, hb'.2.1, ih]

/-- C3: a burst of content mutations each arriving strictly less than
2000 milliseconds after the previous one produces exactly one outbound
write, fired 2000 milliseconds after the last mutation, whose payload is
the sanitized snapshot of the state captured at the last mutation; every
earlier pending timer is canceled by the mutation that follows it. -/
theorem debounce_burst_single_write (calls : List (Nat × Bundle)) (t : Nat)
    (b : Bundle) (hb : Burst 2000 calls)
    (hlast : lastCall calls = some (t, b)) :
    outboundWrites 2000 calls = [(t + 2000, sanitizeBundle b)] := by
  simp [outboundWrites, debounce_core calls t b hb hlast]

/-- Witness for C3: two mutations 1500 milliseconds apart produce the
single write of the second state, 2000 milliseconds after it. -/
theorem debounce_burst_single_write_witness :
    outboundWrites 2000
        [(0, sampleLockedBundle), (1500, sampleConstants.defaults .en)]
      = [(1500 + 2000, sanitizeBundle (sampleConstants.defaults .en))] := by
  exact debounce_burst_single_write _ 1500 _
    ⟨by norm_num, by norm_num, trivial⟩ rfl

/-- Project whose description field carries an inline payload while its
image field does not. -/
def cexProject : Project :=
  ⟨7, "Demo", "data:text/plain;base64,QQ==", "https://ok.png"⟩

/-- Bundle exhibiting the sanitization counterexample. -/
def cexBundle : Bundle :=
  { sampleConstants.defaults .vi with projects := [cexProject] }

/-- Counterexample to C4 as stated: the description field of a project
starts with the inline-payload marker, yet the outbound payload carries the
project verbatim, because sanitization only rewrites the six designated
image and audio fields. -/
theorem sanitize_marker_field_cex :
    isInlinePayload cexProject.description = true ∧
    (saveSnapshot cexBundle).2.projects = [cexProject] := by
  constructor
  · decide
  · decide

/-- C4 as amended: among the designated large-payload fields, none whose
value starts with the marker appears verbatim in the payload; the four
top-level fields become the empty string, per-item image fields become the
fixed https placeholder of their collection; designated fields without the
marker and every non-designated field are written unchanged, and the
in-memory snapshot is returned unmodified. -/
theorem sanitize_designated_fields (b : Bundle) :
    (isInlinePayload b.personalInfo.avatarUrl = true →
      (sanitizeBundle b).personalInfo.avatarUrl = "") ∧
    (isInlinePayload b.personalInfo.avatarUrl = false →
      (sanitizeBundle b).personalInfo.avatarUrl
        = b.personalInfo.avatarUrl) ∧
    (isInlinePayload b.personalInfo.logoUrl = true →
      (sanitizeBundle b).personalInfo.logoUrl = "") ∧
    (isInlinePayload b.personalInfo.logoUrl = false →
      (sanitizeBundle b).personalInfo.logoUrl = b.personalInfo.logoUrl) ∧
    (isInlinePayload b.themeSettings.bgImageUrl = true →
      (sanitizeBundle b).themeSettings.bgImageUrl = "") ∧
    (isInlinePayload b.themeSettings.bgImageUrl = false →
      (sanitizeBundle b).themeSettings.bgImageUrl
        = b.themeSettings.bgImageUrl) ∧
    (isInlinePayload b.themeSettings.backgroundMusicUrl = true →
      (sanitizeBundle b).themeSettings.backgroundMusicUrl = "") ∧
    (isInlinePayload b.themeSettings.backgroundMusicUrl = false →
      (sanitizeBundle b).themeSettings.backgroundMusicUrl
        = b.themeSettings.backgroundMusicUrl) ∧
    (sanitizeBundle b).projects = b.projects.map sanitizeProject ∧
    (sanitizeBundle b).certifications
      = b.certifications.map sanitizeCertificate ∧
    (∀ p : Project, isInlinePayload p.imageUrl = true →
      sanitizeProject p = { p with imageUrl := projectPlaceholderUrl }) ∧
    (∀ p : Project, isInlinePayload p.imageUrl = false →
      sanitizeProject p = p) ∧
    (∀ cert : Certificate, isInlinePayload cert.imageUrl = true →
      sanitizeCertificate cert
        = { cert with imageUrl := certPlaceholderUrl }) ∧
    (∀ cert : Certificate, isInlinePayload cert.imageUrl = false →
      sanitizeCertificate cert = cert) ∧
    strStarts projectPlaceholderUrl "https://" = true ∧
    strStarts certPlaceholderUrl "https://" = true ∧
    (sanitizeBundle b).personalInfo.name = b.personalInfo.name ∧
    (sanitizeBundle b).personalInfo.title = b.personalInfo.title ∧
    (sanitizeBundle b).personalInfo.bio = b.personalInfo.bio ∧
    (sanitizeBundle b).personalInfo.email = b.personalInfo.email ∧
    (sanitizeBundle b).workExperience = b.workExperience ∧
    (sanitizeBundle b).skills = b.skills ∧
    (sanitizeBundle b).themeSettings.bgColor = b.themeSettings.bgColor ∧
    (sanitizeBundle b).themeSettings.sitePassword
      = b.themeSettings.sitePassword ∧
    (sanitizeBundle b).themeSettings.isPasswordProtectionEnabled
      = b.themeSettings.isPasswordProtectionEnabled ∧
    (saveSnapshot b).1 = b ∧
    (saveSnapshot b).2 = sanitizeBundle b := by
  refine ⟨?_, ?_, ?_, ?_, ?_, ?_, ?_, ?_, ?_, ?_, ?_, ?_, ?_, ?_, ?_, ?_,
    ?_, ?_, ?_, ?_, ?_, ?_, ?_, ?_, ?_, ?_, ?_⟩ <;>
    intros <;>
    first
      | decide
      | simp [sanitizeBundle, sanitizeProject, sanitizeCertificate,
          saveSnapshot, *]

/-- Witness for C4 as amended, at a bundle holding an inline avatar and an
inline project image. -/
theorem sanitize_designated_fields_witness :
    (sanitizeBundle
        { cexBundle with
          personalInfo :=
            { cexBundle.personalInfo with avatarUrl := "data:png" },
          projects :=
            [{ cexProject with imageUrl := "data:img" }] }).personalInfo.avatarUrl
      = "" ∧
    sanitizeProject { cexProject with imageUrl := "data:img" }
      = { cexProject with imageUrl := projectPlaceholderUrl } ∧
    sanitizeProject cexProject = cexProject := by
  have h := sanitize_designated_fields
    { cexBundle with
      personalInfo := { cexBundle.personalInfo with avatarUrl := "data:png" },
      projects := [{ cexProject with imageUrl := "data:img" }] }
  refine ⟨h.1 (by decide), ?_, ?_⟩
  · exact h.2.2.2.2.2.2.2.2.2.2.1 _ (by decide)
  · exact h.2.2.2.2.2.2.2.2.2.2.2.1 _ (by decide)

/-- C5: loading with the document absent leaves the in-memory state at
the active-locale default bundle and performs exactly one store write,
which initializes the document to the Vietnamese-locale default bundle
(the bootstrap locale is fixed, App.tsx lines 107 to 115). -/
theorem load_empty_store (c : Constants) (l : Lang) :
    (loadEffect (c.defaults l) c.INITIAL_THEME_SETTINGS (c.defaults .vi)
        (some .missing)).bundle = c.defaults l ∧
    (loadEffect (c.defaults l) c.INITIAL_THEME_SETTINGS (c.defaults .vi)
        (some .missing)).writes = [c.defaults .vi] :=
  ⟨rfl, rfl⟩

/-- Counterexample to C6 as stated: a remote collection that is present
but empty is kept wholesale by the load (a JavaScript array is truthy even
when empty), while the claim as stated would fall back to the non-empty
locale default. -/
theorem collections_empty_remote_cex :
    (⟨none, none, some [], none, none, none⟩ : RemoteDoc).projects
      = some [] ∧
    (loadEffect (sampleConstants.defaults .vi)
        sampleConstants.INITIAL_THEME_SETTINGS (sampleConstants.defaults .vi)
        (some (.found ⟨none, none, some [], none, none, none⟩))).bundle.projects = [] ∧
    (sampleConstants.defaults .vi).projects = [sampleProjectVi] ∧
    ([] : List Project) ≠ [sampleProjectVi] := by
  refine ⟨rfl, rfl, rfl, by simp⟩

/-- C6 as amended: each of the four collections is taken wholesale from
the remote document whenever the member is present, including when it is
the empty list, and falls back to the active-locale default only when the
member is absent; no element-wise merge happens. -/
theorem collections_replace_wholesale (c : Constants) (l : Lang)
    (d : RemoteDoc) :
    overrides (c.defaults l).workExperience d.workExperience
      ((loadEffect (c.defaults l) c.INITIAL_THEME_SETTINGS
          (c.defaults .vi) (some (.found d))).bundle.workExperience) ∧
    overrides (c.defaults l).projects d.projects
      ((loadEffect (c.defaults l) c.INITIAL_THEME_SETTINGS
          (c.defaults .vi) (some (.found d))).bundle.projects) ∧
    overrides (c.defaults l).certifications d.certifications
      ((loadEffect (c.defaults l) c.INITIAL_THEME_SETTINGS
          (c.defaults .vi) (some (.found d))).bundle.certifications) ∧
    overrides (c.defaults l).skills d.skills
      ((loadEffect (c.defaults l) c.INITIAL_THEME_SETTINGS
          (c.defaults .vi) (some (.found d))).bundle.skills) := by
  refine ⟨?_, ?_, ?_, ?_⟩ <;> exact overrides_getD _ _

/-- Witness for C6 as amended: a present remote workExperience replaces
the default wholesale, and an absent remote projects member keeps the
locale default. -/
theorem collections_replace_wholesale_witness :
    (loadEffect (sampleConstants.defaults .vi)
        sampleConstants.INITIAL_THEME_SETTINGS (sampleConstants.defaults .vi)
        (some (.found sampleRemoteDoc))).bundle.workExperience
      = [{ sampleExperienceVi with title := "Remote" }] ∧
    (loadEffect (sampleConstants.defaults .vi)
        sampleConstants.INITIAL_THEME_SETTINGS (sampleConstants.defaults .vi)
        (some (.found sampleRemoteDoc))).bundle.projects
      = [sampleProjectVi] := by
  have h := collections_replace_wholesale sampleConstants .vi sampleRemoteDoc
  exact ⟨h.1.1 _ rfl, h.2.1.2 rfl⟩

/-- Witness for C1 at the sample document: the present name field keeps
its remote value, the absent title field keeps the locale default, the
present sitePassword keeps its remote value, and the absent bgColor keeps
the theme default. -/
theorem load_merges_over_defaults_witness :
    (loadEffect (sampleConstants.defaults .vi)
        sampleConstants.INITIAL_THEME_SETTINGS (sampleConstants.defaults .vi)
        (some (.found sampleRemoteDoc))).bundle.personalInfo.name
      = "Remote Minh" ∧
    (loadEffect (sampleConstants.defaults .vi)
        sampleConstants.INITIAL_THEME_SETTINGS (sampleConstants.defaults .vi)
        (some (.found sampleRemoteDoc))).bundle.personalInfo.title
      = samplePersonalInfoVi.title ∧
    (loadEffect (sampleConstants.defaults .vi)
        sampleConstants.INITIAL_THEME_SETTINGS (sampleConstants.defaults .vi)
        (some (.found sampleRemoteDoc))).bundle.themeSettings.sitePassword
      = "s3cret" ∧
    (loadEffect (sampleConstants.defaults .vi)
        sampleConstants.INITIAL_THEME_SETTINGS (sampleConstants.defaults .vi)
        (some (.found sampleRemoteDoc))).bundle.themeSettings.bgColor
      = sampleTheme.bgColor := by
  have h := load_merges_over_defaults sampleConstants .vi sampleRemoteDoc
  exact ⟨h.1.1.1 _ rfl, h.1.2.1.2 rfl,
    h.2.2.2.2.2.2.2.2.2.2.2.2.2.1 _ rfl, h.2.1.2 rfl⟩

/-- Remote document with all four collections present, used by the C7
witness. -/
def fullRemoteDoc : RemoteDoc :=
  ⟨none, some [sampleExperienceVi], some [], some [sampleCertificateVi],
   some [sampleSkillVi], none⟩

/-- C7: a pure locale switch replaces the four collection values wholesale
with the new locale defaults, independently of whatever previously merged
remote overrides the prior state held, and a subsequent fresh load cycle
is what reapplies present remote collections. -/
theorem locale_switch (c : Constants) (l : Lang) (prev : Bundle) :
    ((langSwitch c l prev).workExperience
        = (c.defaults l).workExperience ∧
     (langSwitch c l prev).projects = (c.defaults l).projects ∧
     (langSwitch c l prev).certifications
        = (c.defaults l).certifications ∧
     (langSwitch c l prev).skills = (c.defaults l).skills) ∧
    (∀ prev' : Bundle,
      (langSwitch c l prev').workExperience
          = (langSwitch c l prev).workExperience ∧
      (langSwitch c l prev').projects = (langSwitch c l prev).projects ∧
      (langSwitch c l prev').certifications
          = (langSwitch c l prev).certifications ∧
      (langSwitch c l prev').skills = (langSwitch c l prev).skills) ∧
    (∀ (d : RemoteDoc) (ws : List Experience) (ps : List Project)
        (cs : List Certificate) (sk : List SkillCategory),
      d.workExperience = some ws → d.projects = some ps →
      d.certifications = some cs → d.skills = some sk →
      (loadEffect (langSwitch c l prev) c.INITIAL_THEME_SETTINGS
          (c.defaults .vi) (some (.found d))).bundle.workExperience = ws ∧
      (loadEffect (langSwitch c l prev) c.INITIAL_THEME_SETTINGS
          (c.defaults .vi) (some (.found d))).bundle.projects = ps ∧
      (loadEffect (langSwitch c l prev) c.INITIAL_THEME_SETTINGS
          (c.defaults .vi) (some (.found d))).bundle.certifications = cs ∧
      (loadEffect (langSwitch c l prev) c.INITIAL_THEME_SETTINGS
          (c.defaults .vi) (some (.found d))).bundle.skills = sk) := by
  refine ⟨⟨rfl, rfl, rfl, rfl⟩, fun _ => ⟨rfl, rfl, rfl, rfl⟩, ?_⟩
  intro d ws ps cs sk h1 h2 h3 h4
  refine ⟨?_, ?_, ?_, ?_⟩ <;>
    simp [loadEffect, applyRemote, h1, h2, h3, h4]

/-- Witness for C7: switching the sample locked state to the English
locale installs the English project defaults, and a fresh load against the
full sample document reinstalls its remote workExperience. -/
theorem locale_switch_witness :
    (langSwitch sampleConstants .en sampleLockedBundle).projects
      = sampleConstants.PROJECTS_EN ∧
    (loadEffect (langSwitch sampleConstants .en sampleLockedBundle)
        sampleConstants.INITIAL_THEME_SETTINGS (sampleConstants.defaults .vi)
        (some (.found fullRemoteDoc))).bundle.workExperience
      = [sampleExperienceVi] := by
  have h := locale_switch sampleConstants .en sampleLockedBundle
  exact ⟨h.1.2.1,
    (h.2.2 fullRemoteDoc [sampleExperienceVi] [] [sampleCertificateVi]
      [sampleSkillVi] rfl rfl rfl rfl).1⟩

/-- C8: with the store client unavailable the load effect attempts no read
and no write, completes loading, sets no load error, and keeps the default
bundle, and the guarded save path emits no write for any call burst of the
session; with an available store whose fetch fails, the defaults are kept,
the non-fatal error message is set, no write happens, and loading still
completes. -/
theorem store_failure_isolation :
    (∀ (base : Bundle) (it : ThemeSettings) (vi : Bundle),
      loadEffect base it vi none
        = { bundle := base, writes := [], reads := 0, errorSet := false,
            loadingDone := true }) ∧
    (∀ (wait : Nat) (calls : List (Nat × Bundle)),
      saveWrites false wait calls = []) ∧
    (∀ (base : Bundle) (it : ThemeSettings) (vi : Bundle),
      loadEffect base it vi (some .failure)
        = { bundle := base, writes := [], reads := 1, errorSet := true,
            loadingDone := true }) := by
  refine ⟨fun _ _ _ => rfl, fun w calls => ?_, fun _ _ _ => rfl⟩
  simp [saveWrites]

/-- C9: the fixed admin pair unlocks the site, returns true and leaves the
authenticated flag untouched; any other pair returns false and changes
nothing; the settings login callback sets the authenticated flag and does
not touch the lock flag. -/
theorem admin_unlock_and_login (s : AppState) :
    handleAdminLoginForUnlock s "Minh" "2004"
      = ({ s with unlocked := true }, true) ∧
    (handleAdminLoginForUnlock s "Minh" "2004").1.authenticated
      = s.authenticated ∧
    (∀ u p, ¬(u = "Minh" ∧ p = "2004") →
      handleAdminLoginForUnlock s u p = (s, false)) ∧
    handleLoginSuccess s = { s with authenticated := true } ∧
    (handleLoginSuccess s).unlocked = s.unlocked := by
  refine ⟨?_, ?_, ?_, rfl, rfl⟩
  · simp [handleAdminLoginForUnlock]
  · simp [handleAdminLoginForUnlock]
  · intro u p h
    simp [handleAdminLoginForUnlock, h]

/-- Witness for C9 at the locked sample state: the admin pair unlocks
with result true, and a wrong pair returns the state unchanged with
result false. -/
theorem admin_unlock_and_login_witness :
    handleAdminLoginForUnlock (mountState sampleLockedBundle) "Minh" "2004"
      = ({ mountState sampleLockedBundle with unlocked := true }, true) ∧
    handleAdminLoginForUnlock (mountState sampleLockedBundle) "Minh" "wrong"
      = (mountState sampleLockedBundle, false) := by
  have h := admin_unlock_and_login (mountState sampleLockedBundle)
  exact ⟨h.1, h.2.2.1 "Minh" "wrong" (by decide)⟩

/-- C10: both unlock handlers leave the six persisted values, the
authenticated flag and the loading flag unchanged, so the save effect,
whose dependencies are exactly those values, does not fire after an
unlock attempt, successful or not. -/
theorem unlock_no_save (s : AppState) (p u q : String) :
    (handleUnlockSite s p).1.bundle = s.bundle ∧
    (handleUnlockSite s p).1.authenticated = s.authenticated ∧
    (handleUnlockSite s p).1.isLoading = s.isLoading ∧
    (handleAdminLoginForUnlock s u q).1.bundle = s.bundle ∧
    (handleAdminLoginForUnlock s u q).1.authenticated = s.authenticated ∧
    (handleAdminLoginForUnlock s u q).1.isLoading = s.isLoading ∧
    ¬ saveEffectFires s (handleUnlockSite s p).1 ∧
    ¬ saveEffectFires s (handleAdminLoginForUnlock s u q).1 := by
  refine ⟨?_, ?_, ?_, ?_, ?_, ?_, ?_, ?_⟩ <;>
    simp only [handleUnlockSite, handleAdminLoginForUnlock,
      saveEffectFires, saveDeps] <;>
    split <;> simp

/-- Witness for C10: a successful site unlock keeps the bundle, and a
successful admin unlock does not fire the save effect. -/
theorem unlock_no_save_witness :
    (handleUnlockSite (mountState sampleLockedBundle) "abc123").1.bundle
      = sampleLockedBundle ∧
    ¬ saveEffectFires (mountState sampleLockedBundle)
        (handleAdminLoginForUnlock (mountState sampleLockedBundle)
          "Minh" "2004").1 := by
  have h := unlock_no_save (mountState sampleLockedBundle) "abc123"
    "Minh" "2004"
  exact ⟨h.1, h.2.2.2.2.2.2.2⟩

end Portfolio
